import Mathlib

/-!
Shallow embedding of the gh-app-local pull-request webhook handlers.

The repository has two close variants of one Node.js program:
* `src/index.js` — the file-check variant: on an actionable pull_request
  event it creates a "Compliance" check run, queries the repository
  contents API for `README.md` and `CONTRIBUTING.md` at the head SHA,
  finalizes the check run with a computed conclusion, posts a PR comment,
  and on any error in that block finalizes with a generic failure report.
* `src/unnamed/part_000` — the demo variant: same skeleton, but the
  verification step is a random draw (`Math.random() > 0.5`) and there is
  no comment post.

Remote calls are modelled by an `Env` giving the remote's response to each
call site, and each handler is a pure function from `Env` and the decoded
payload to the ordered list of remote API calls it issues plus whether the
handler's promise rejected.
-/

namespace GhApp

/-- JS truthiness of an optional numeric payload field:
`!x` is true when the field is absent or `0`. -/
def truthyNat : Option Nat → Bool
  | none => false
  | some n => n != 0

/-- JS truthiness of an optional string payload field:
`!x` is true when the field is absent or the empty string. -/
def truthyStr : Option String → Bool
  | none => false
  | some s => s != ""

/-- The JS `Array.prototype.join(sep)` operation on a list of strings. -/
def joinSep (sep : String) : List String → String
  | [] => ""
  | [s] => s
  | s :: rest => s ++ sep ++ joinSep sep rest

/-- One row of the file-check table: `{ name, pass, notes }` as built in
`src/index.js` (the `existence` array and the argument of `renderTable` /
`renderComment`). -/
structure Row where
  name : String
  pass : Bool
  notes : String
deriving Repr, DecidableEq

/-- Function `renderTable` from `src/index.js` lines 44–47. -/
def renderTable (rows : List Row) : String :=
  "| Check | Result | Notes |\n|---|---|---|\n" ++
    joinSep "\n" (rows.map fun r =>
      "| " ++ r.name ++ " | " ++ (if r.pass then "✅ Present" else "❌ Missing")
        ++ " | " ++ r.notes ++ " |")

/-- The failing rule names, `rows.filter(r => !r.pass).map(r => r.name)`
from `renderComment` in `src/index.js`. -/
def missingNames (rows : List Row) : List String :=
  (rows.filter fun r => !r.pass).map fun r => r.name

/-- Function `renderComment` from `src/index.js` lines 49–55. -/
def renderComment (rows : List Row) : String :=
  let missing := missingNames rows
  let header :=
    if missing.length == 0 then
      "✅ **Compliance PASSED** — All required files are present."
    else
      "❌ **Compliance FAILED** — Missing: " ++ joinSep ", " missing
  header ++ "\n\n" ++ renderTable rows

/-- Remote response to one `GET /repos/.../contents/{path}` request:
success, a 404 error, or any other error (`e.status !== 404`). -/
inductive ContentsOutcome where
  | found
  | notFound404
  | otherError
deriving Repr, DecidableEq

/-- Function `fileExists` from `src/index.js` lines 28–42: a successful contents
response yields `true`, a 404 yields `false`, any other error is
re-thrown. -/
def fileExists : ContentsOutcome → Except Unit Bool
  | .found => .ok true
  | .notFound404 => .ok false
  | .otherError => .error ()

/-- Decoded `pull_request` webhook payload fields used by the handlers;
`none` models an absent (`undefined`) field reached by optional
chaining. -/
structure Payload where
  action : String
  installationId : Option Nat
  ownerLogin : Option String
  repoName : Option String
  headSha : Option String
  number : Option Nat
  headRef : Option String
deriving Repr, DecidableEq

/-- The action check `["opened", "reopened", "synchronize"].includes(action)`. -/
def actionable (a : String) : Bool :=
  a == "opened" || a == "reopened" || a == "synchronize"

/-- One remote API call issued by a handler, with the payload fields that
identify it. -/
inductive ApiCall where
  | auth (installationId : Nat)
  | createCheckRun (owner repo headSha : String)
  | getContents (owner repo path ref : String)
  | patchCheckRun (checkRunId : Nat) (conclusion title summary text : String)
  | postComment (issueNumber : Nat) (body : String)
deriving Repr, DecidableEq

/-- The remote's response to each call site of one handler run.
`contents` gives the contents-API outcome per requested path (the ref is
always the head SHA); the `Ok` flags say whether the corresponding request
succeeds or throws. The fallback PATCH's own outcome (`fallbackPatchOk`)
is swallowed by the handler (`catch {}`), so it affects nothing
observable. -/
structure Env where
  authOk : Bool
  createOk : Bool
  checkRunId : Nat
  contents : String → ContentsOutcome
  patchOk : Bool
  fallbackPatchOk : Bool
  commentOk : Bool

/-- The fixed target list of `src/index.js` line 86. -/
def targets : List String := ["README.md", "CONTRIBUTING.md"]

/-- The row built for one target path in the `Promise.all` of
`src/index.js` lines 87–93. -/
def rowFor (env : Env) (p : String) : Except Unit Row :=
  (fileExists (env.contents p)).map fun b =>
    { name := p, pass := b, notes := "Checked at repo root" }

/-- Collects the rows for a list of target paths in declared order,
stopping at the first rejected `fileExists` (the value — though not the
set of issued calls — of `await Promise.all`). -/
def collectRows (env : Env) : List String → Except Unit (List Row)
  | [] => .ok []
  | t :: ts =>
    match rowFor env t with
    | .error e => .error e
    | .ok r =>
      match collectRows env ts with
      | .error e => .error e
      | .ok rest => .ok (r :: rest)

/-- The value of `await Promise.all(targets.map(...))`: the rows in
declared order, or the error of a rejected `fileExists`. -/
def existenceResults (env : Env) : Except Unit (List Row) :=
  collectRows env targets

/-- The conclusion mapping `allPass ? "success" : "failure"` from `src/index.js` line 98. -/
def conclusionFor (rows : List Row) : String :=
  if rows.all (fun r => r.pass) then "success" else "failure"

/-- The `output.title` of the computed finalize PATCH,
`src/index.js` line 109. -/
def fileTitle (rows : List Row) : String :=
  "Compliance (files): " ++ (if rows.all (fun r => r.pass) then "PASSED" else "FAILED")

/-- The `summary` of the computed finalize PATCH, `src/index.js` line 97. -/
def fileSummary (rows : List Row) : String :=
  toString (rows.filter fun r => r.pass).length ++ " / "
    ++ toString rows.length ++ " required files present"

/-- The computed finalize PATCH of `src/index.js` lines 100–115. -/
def computedPatch (env : Env) (rows : List Row) : ApiCall :=
  .patchCheckRun env.checkRunId (conclusionFor rows) (fileTitle rows)
    (fileSummary rows) ("### Required files\n" ++ renderTable rows)

/-- The fallback finalize PATCH of the catch block,
`src/index.js` lines 132–147. -/
def fallbackPatch (env : Env) : ApiCall :=
  .patchCheckRun env.checkRunId "failure" "Compliance (files): ERROR"
    "Error while performing required-file checks" "See app logs for details."

/-- Result of one handler run: the ordered remote calls it issued, and
whether the handler's async function rejected with an uncaught error. -/
structure HandlerOutcome where
  calls : List ApiCall
  raised : Bool
deriving Repr, DecidableEq

/-- The guard of `src/index.js` line 69:
`!installationId || !owner || !repo || !headSha || !prNumber`, negated. -/
def filterPasses (p : Payload) : Bool :=
  truthyNat p.installationId && truthyStr p.ownerLogin && truthyStr p.repoName
    && truthyStr p.headSha && truthyNat p.number

/-- The calls issued inside the try/catch of `src/index.js` lines 85–149,
after a successful check-run creation. Both contents GETs are always
issued (the `targets.map` creates all requests before `Promise.all`
awaits them). -/
def tryCatchCalls (env : Env) (owner repo sha : String) (prNumber : Nat) :
    List ApiCall :=
  let getCalls := targets.map fun t => ApiCall.getContents owner repo t sha
  match existenceResults env with
  | .error _ => getCalls ++ [fallbackPatch env]
  | .ok rows =>
    if env.patchOk then
      if env.commentOk then
        getCalls ++ [computedPatch env rows,
          ApiCall.postComment prNumber (renderComment rows)]
      else
        getCalls ++ [computedPatch env rows,
          ApiCall.postComment prNumber (renderComment rows), fallbackPatch env]
    else
      getCalls ++ [computedPatch env rows, fallbackPatch env]

/-- The `webhooks.on("pull_request")` handler of `src/index.js`
lines 57–150. -/
def handler (env : Env) (p : Payload) : HandlerOutcome :=
  if !actionable p.action then ⟨[], false⟩
  else if !filterPasses p then ⟨[], false⟩
  else
    let owner := p.ownerLogin.getD ""
    let repo := p.repoName.getD ""
    let sha := p.headSha.getD ""
    let authCall := ApiCall.auth (p.installationId.getD 0)
    if !env.authOk then ⟨[authCall], true⟩
    else
      let createCall := ApiCall.createCheckRun owner repo sha
      if !env.createOk then ⟨[authCall, createCall], true⟩
      else
        ⟨authCall :: createCall :: tryCatchCalls env owner repo sha (p.number.getD 0),
          false⟩

/-- Recognizes a check-run finalize call
(`PATCH /repos/.../check-runs/{check_run_id}` with `status: "completed"`;
every PATCH the program issues sets that status). -/
def isPatch : ApiCall → Bool
  | .patchCheckRun _ _ _ _ _ => true
  | _ => false

/-- Recognizes a PR-comment post call. -/
def isComment : ApiCall → Bool
  | .postComment _ _ => true
  | _ => false

/-- Number of finalize PATCH calls issued in one run. -/
def finalizeCount (o : HandlerOutcome) : Nat :=
  (o.calls.filter isPatch).length

/-- The conclusions of the finalize PATCH calls, in issue order. -/
def patchConclusions (o : HandlerOutcome) : List String :=
  o.calls.filterMap fun c =>
    match c with
    | .patchCheckRun _ concl _ _ _ => some concl
    | _ => none

/-- The titles of the finalize PATCH calls, in issue order. -/
def patchTitles (o : HandlerOutcome) : List String :=
  o.calls.filterMap fun c =>
    match c with
    | .patchCheckRun _ _ title _ _ => some title
    | _ => none

/-! ### The demo variant, `src/unnamed/part_000` -/

/-- One entry of the demo variant's `checks` array:
`{ name, pass, description }`. -/
structure DemoCheck where
  name : String
  pass : Bool
  description : String
deriving Repr, DecidableEq

/-- The demo variant's `checks` array (`part_000` lines 69–74), as a
function of the random draw `compliant = Math.random() > 0.5`. -/
def demoChecks (compliant : Bool) : List DemoCheck :=
  [ { name := "No Critical Vulns", pass := compliant,
      description := if compliant then "OK" else "Found 1 critical (demo)" },
    { name := "License Policy", pass := true, description := "OK" },
    { name := "Sonar Quality Gate", pass := true, description := "OK" } ]

/-- The demo variant's table (`part_000` lines 77–78). -/
def demoTable (checks : List DemoCheck) : String :=
  "| Check | Result | Notes |\n|---|---|---|\n" ++
    joinSep "\n" (checks.map fun c =>
      "| " ++ c.name ++ " | " ++ (if c.pass then "✅" else "❌")
        ++ " | " ++ c.description ++ " |")

/-- The demo variant's summary line (`part_000` line 79). -/
def demoSummary (checks : List DemoCheck) : String :=
  toString (checks.filter fun c => c.pass).length ++ " / "
    ++ toString checks.length ++ " checks passed"

/-- The demo variant's computed finalize PATCH (`part_000` lines 83–98);
both the conclusion and the title branch on `compliant` directly. -/
def demoComputedPatch (env : Env) (compliant : Bool) : ApiCall :=
  .patchCheckRun env.checkRunId (if compliant then "success" else "failure")
    ("Compliance: " ++ (if compliant then "PASSED" else "FAILED"))
    (demoSummary (demoChecks compliant))
    ("### Checks\n" ++ demoTable (demoChecks compliant))

/-- The demo variant's fallback finalize PATCH (`part_000` lines 106–121). -/
def demoFallbackPatch (env : Env) : ApiCall :=
  .patchCheckRun env.checkRunId "failure" "Compliance: ERROR"
    "Compliance run failed" "See server logs for details."

/-- The guard of `part_000` line 44:
`!installationId || !owner || !repo || !headSha`, negated.
Unlike the file-check variant it does not require `payload.number`. -/
def demoFilterPasses (p : Payload) : Bool :=
  truthyNat p.installationId && truthyStr p.ownerLogin && truthyStr p.repoName
    && truthyStr p.headSha

/-- The `webhooks.on("pull_request")` handler of `src/unnamed/part_000`
lines 32–126. The random draw of line 69 is an explicit input
`compliant`; there is no comment post in this variant. -/
def demoHandler (env : Env) (p : Payload) (compliant : Bool) : HandlerOutcome :=
  if !actionable p.action then ⟨[], false⟩
  else if !demoFilterPasses p then ⟨[], false⟩
  else
    let owner := p.ownerLogin.getD ""
    let repo := p.repoName.getD ""
    let sha := p.headSha.getD ""
    let authCall := ApiCall.auth (p.installationId.getD 0)
    if !env.authOk then ⟨[authCall], true⟩
    else
      let createCall := ApiCall.createCheckRun owner repo sha
      if !env.createOk then ⟨[authCall, createCall], true⟩
      else if env.patchOk then
        ⟨[authCall, createCall, demoComputedPatch env compliant], false⟩
      else
        ⟨[authCall, createCall, demoComputedPatch env compliant,
          demoFallbackPatch env], false⟩

/-! ### Concrete inputs used by witnesses and counterexamples -/

/-- A well-formed actionable payload. -/
def pOk : Payload :=
  { action := "opened", installationId := some 5, ownerLogin := some "o",
    repoName := some "r", headSha := some "abc", number := some 7,
    headRef := some "feature" }

/-- Like `pOk` but with `payload.number` absent. -/
def pNoNumber : Payload :=
  { action := "opened", installationId := some 5, ownerLogin := some "o",
    repoName := some "r", headSha := some "abc", number := none,
    headRef := none }

/-- Like `pOk` but with `payload.number = 0` (falsy in JS). -/
def pZeroNumber : Payload :=
  { action := "opened", installationId := some 5, ownerLogin := some "o",
    repoName := some "r", headSha := some "abc", number := some 0,
    headRef := none }

/-- Remote behaviour: everything succeeds, both files present. -/
def envAllFound : Env :=
  { authOk := true, createOk := true, checkRunId := 77,
    contents := fun _ => .found, patchOk := true, fallbackPatchOk := true,
    commentOk := true }

/-- Remote behaviour: both files present, the computed PATCH succeeds, but
the PR-comment POST fails. -/
def envCommentFails : Env :=
  { authOk := true, createOk := true, checkRunId := 77,
    contents := fun _ => .found, patchOk := true, fallbackPatchOk := true,
    commentOk := false }

/-- Remote behaviour: `CONTRIBUTING.md` answers 404, everything else
succeeds. -/
def envContrib404 : Env :=
  { authOk := true, createOk := true, checkRunId := 77,
    contents := fun p => if p == "CONTRIBUTING.md" then .notFound404 else .found,
    patchOk := true, fallbackPatchOk := true, commentOk := true }

/-- Remote behaviour: the contents query for `CONTRIBUTING.md` fails with a
non-404 error. -/
def envContribError : Env :=
  { authOk := true, createOk := true, checkRunId := 77,
    contents := fun p => if p == "CONTRIBUTING.md" then .otherError else .found,
    patchOk := true, fallbackPatchOk := true, commentOk := true }

/-- Remote behaviour: authentication fails. -/
def envAuthFail : Env :=
  { authOk := false, createOk := true, checkRunId := 77,
    contents := fun _ => .found, patchOk := true, fallbackPatchOk := true,
    commentOk := true }

/-- Remote behaviour: authentication succeeds, check-run creation fails. -/
def envCreateFail : Env :=
  { authOk := true, createOk := false, checkRunId := 77,
    contents := fun _ => .found, patchOk := true, fallbackPatchOk := true,
    commentOk := true }

/-! ### Helper lemmas -/

lemma handler_eq (env : Env) (p : Payload) (ha : actionable p.action = true)
    (hf : filterPasses p = true) (hA : env.authOk = true) (hC : env.createOk = true) :
    handler env p =
      ⟨ApiCall.auth (p.installationId.getD 0) ::
        ApiCall.createCheckRun (p.ownerLogin.getD "") (p.repoName.getD "")
          (p.headSha.getD "") ::
        tryCatchCalls env (p.ownerLogin.getD "") (p.repoName.getD "")
          (p.headSha.getD "") (p.number.getD 0), false⟩ := by
  simp [handler, ha, hf, hA, hC]

lemma patchConclusions_handler (env : Env) (p : Payload)
    (ha : actionable p.action = true) (hf : filterPasses p = true)
    (hA : env.authOk = true) (hC : env.createOk = true) :
    patchConclusions (handler env p) =
      match existenceResults env with
      | .error _ => ["failure"]
      | .ok rows =>
        if env.patchOk && env.commentOk then [conclusionFor rows]
        else [conclusionFor rows, "failure"] := by
  rw [handler_eq env p ha hf hA hC]
  rcases h : existenceResults env with e | rows
  · simp [patchConclusions, tryCatchCalls, h, targets, fallbackPatch]
  · cases hp : env.patchOk <;> cases hc : env.commentOk <;>
      simp [patchConclusions, tryCatchCalls, h, hp, hc, targets, fallbackPatch,
        computedPatch]

lemma finalizeCount_eq_length (o : HandlerOutcome) :
    finalizeCount o = (patchConclusions o).length := by
  unfold finalizeCount patchConclusions
  generalize o.calls = l
  induction l with
  | nil => rfl
  | cons c l ih => cases c <;> simp [isPatch, ih]

lemma patchTitles_handler_error (env : Env) (p : Payload)
    (ha : actionable p.action = true) (hf : filterPasses p = true)
    (hA : env.authOk = true) (hC : env.createOk = true)
    (e : Unit) (h : existenceResults env = .error e) :
    patchTitles (handler env p) = ["Compliance (files): ERROR"] := by
  rw [handler_eq env p ha hf hA hC]
  simp [patchTitles, tryCatchCalls, h, targets, fallbackPatch]

/-! ### Claim theorems -/

/-- C1 counterexample: on a successful create where verification and the
computed finalize both succeed but the PR-comment POST then fails, the
handler issues the finalize PATCH twice (the computed one, then the
fallback one from the shared catch block) — refuting "never twice ...
regardless of whether ... the comment post fails". -/
theorem c1_finalize_twice_on_comment_failure :
    actionable pOk.action = true ∧ filterPasses pOk = true ∧
    envCommentFails.authOk = true ∧ envCommentFails.createOk = true ∧
    envCommentFails.commentOk = false ∧
    finalizeCount (handler envCommentFails pOk) = 2 := by
  decide

/-- C2 counterexample: after the check run is finalized with conclusion
`"success"`, the failing comment POST lands in the same catch block, which
issues a further finalize PATCH with conclusion `"failure"` — refuting
"no further check-run PATCH is issued ... and the recorded conclusion is
unchanged". -/
theorem c2_comment_failure_repatches :
    envCommentFails.commentOk = false ∧
    (handler envCommentFails pOk).calls.filter isComment ≠ [] ∧
    patchConclusions (handler envCommentFails pOk) = ["success", "failure"] := by
  decide

/-- C6 counterexample: an actionable event carrying installation id, owner
login, repository name and head SHA — but no `payload.number` — is dropped
by the file-check handler with no remote call, refuting "for every
actionable event carrying all four of those fields it proceeds to
authenticate and create a check run". -/
theorem c6_four_fields_not_sufficient :
    actionable pNoNumber.action = true ∧
    truthyNat pNoNumber.installationId = true ∧
    truthyStr pNoNumber.ownerLogin = true ∧
    truthyStr pNoNumber.repoName = true ∧
    truthyStr pNoNumber.headSha = true ∧
    handler envAllFound pNoNumber = ⟨[], false⟩ := by
  decide

/-- C4 counterexample: in the demo variant the report is a function of the
random draw, so two runs of the same event with identical remote responses
need not produce identical reports. -/
theorem c4_demo_random_breaks_determinism :
    patchTitles (demoHandler envAllFound pOk true) = ["Compliance: PASSED"] ∧
    patchTitles (demoHandler envAllFound pOk false) = ["Compliance: FAILED"] ∧
    demoHandler envAllFound pOk true ≠ demoHandler envAllFound pOk false := by
  decide

/-- C10: aggregation and rendering treat an empty rule-result sequence as a
pass: `every()` over an empty list yields `true`, the conclusion mapping
gives `"success"`, and `renderComment []` is the PASSED header followed by
a table consisting of the header rows only. -/
theorem c10_empty_rules_vacuous_pass :
    (([] : List Row).all (fun r => r.pass)) = true ∧
    conclusionFor [] = "success" ∧
    renderComment [] =
      "✅ **Compliance PASSED** — All required files are present.\n\n| Check | Result | Notes |\n|---|---|---|\n" := by
  decide

/-- C1 (amended): after a successful create, the finalize PATCH is issued
at least once and at most twice — exactly twice precisely when a Verdict
was produced and then either the computed PATCH or the subsequent comment
POST failed (the shared catch block then issues the fallback PATCH as
well); it is exactly once when verification fails before the computed
PATCH or when every later call succeeds. -/
theorem c1_amended_finalize_count (env : Env) (p : Payload)
    (ha : actionable p.action = true) (hf : filterPasses p = true)
    (hA : env.authOk = true) (hC : env.createOk = true) :
    1 ≤ finalizeCount (handler env p) ∧ finalizeCount (handler env p) ≤ 2 ∧
    (finalizeCount (handler env p) = 2 ↔
      (∃ rows, existenceResults env = .ok rows) ∧
        (env.patchOk = false ∨ env.commentOk = false)) := by
  rw [finalizeCount_eq_length, patchConclusions_handler env p ha hf hA hC]
  rcases h : existenceResults env with e | rows
  · simp
  · cases hp : env.patchOk <;> cases hc : env.commentOk <;> simp

/-- C1 amended, instantiated: both files found, computed PATCH succeeds,
comment POST fails — the bounds hold and the count is 2. -/
theorem c1_amended_witness :
    1 ≤ finalizeCount (handler envCommentFails pOk) ∧
    finalizeCount (handler envCommentFails pOk) ≤ 2 ∧
    (finalizeCount (handler envCommentFails pOk) = 2 ↔
      (∃ rows, existenceResults envCommentFails = .ok rows) ∧
        (envCommentFails.patchOk = false ∨ envCommentFails.commentOk = false)) :=
  c1_amended_finalize_count envCommentFails pOk (by decide) (by decide) rfl rfl

/-- C2 (amended): a comment-POST failure after the check run was finalized
is caught by the handler's shared catch block, which issues one further
fallback PATCH with conclusion `"failure"` (overwriting a computed
`"success"`); only the fallback PATCH's own failure is merely logged. -/
theorem c2_amended_comment_failure_fallback (env : Env) (p : Payload)
    (ha : actionable p.action = true) (hf : filterPasses p = true)
    (hA : env.authOk = true) (hC : env.createOk = true)
    (hp : env.patchOk = true) (hc : env.commentOk = false)
    (rows : List Row) (h : existenceResults env = .ok rows) :
    patchConclusions (handler env p) = [conclusionFor rows, "failure"] ∧
    (handler env p).calls.getLast? = some (fallbackPatch env) := by
  constructor
  · rw [patchConclusions_handler env p ha hf hA hC, h]
    simp [hp, hc]
  · rw [handler_eq env p ha hf hA hC]
    simp [tryCatchCalls, h, hp, hc, targets]

/-- C2 amended, instantiated: both files found, comment POST fails — the
PATCH conclusions are `["success", "failure"]` and the run ends with the
fallback PATCH. -/
theorem c2_amended_witness :
    patchConclusions (handler envCommentFails pOk) =
      [conclusionFor [{ name := "README.md", pass := true, notes := "Checked at repo root" },
                      { name := "CONTRIBUTING.md", pass := true, notes := "Checked at repo root" }],
       "failure"] ∧
    (handler envCommentFails pOk).calls.getLast? = some (fallbackPatch envCommentFails) :=
  c2_amended_comment_failure_fallback envCommentFails pOk (by decide) (by decide)
    rfl rfl rfl rfl _ rfl

/-- C3: the conclusion mapping fails closed. When a Verdict is produced,
the first finalize PATCH carries `conclusionFor rows`, which is
`"success"` iff every rule result has `pass = true`; when verification
fails before a Verdict, every finalize PATCH of the run carries
`"failure"`; and in every case a PATCH carrying `"success"` can only stem
from a produced Verdict whose rules all pass. -/
theorem c3_conclusion_fails_closed (env : Env) (p : Payload)
    (ha : actionable p.action = true) (hf : filterPasses p = true)
    (hA : env.authOk = true) (hC : env.createOk = true) :
    (∀ rows, existenceResults env = .ok rows →
      (patchConclusions (handler env p)).head? = some (conclusionFor rows) ∧
      (conclusionFor rows = "success" ↔ rows.all (fun r => r.pass) = true))
    ∧ (∀ e, existenceResults env = .error e →
        patchConclusions (handler env p) = ["failure"])
    ∧ (∀ c ∈ patchConclusions (handler env p), c = "success" →
        ∃ rows, existenceResults env = .ok rows ∧
          rows.all (fun r => r.pass) = true) := by
  rw [patchConclusions_handler env p ha hf hA hC]
  refine ⟨?_, ?_, ?_⟩
  · intro rows h
    rw [h]
    constructor
    · cases hb : env.patchOk && env.commentOk <;> simp [hb]
    · unfold conclusionFor
      cases hall : rows.all (fun r => r.pass) <;> simp [hall]
  · intro e h
    rw [h]
  · intro c hc hcs
    rcases h : existenceResults env with e | rows
    · rw [h] at hc
      simp at hc
      rw [hc] at hcs
      exact absurd hcs (by decide)
    · refine ⟨rows, rfl, ?_⟩
      rw [h] at hc
      have hcf : c = conclusionFor rows ∨ c = "failure" := by
        cases hb : env.patchOk && env.commentOk <;> rw [hb] at hc
        · simp at hc
          exact hc
        · simp at hc
          exact Or.inl hc
      rcases hcf with hcf | hcf
      · rw [hcf] at hcs
        unfold conclusionFor at hcs
        cases hall : rows.all (fun r => r.pass)
        · rw [hall] at hcs
          exact absurd hcs (by decide)
        · rfl
      · rw [hcf] at hcs
        exact absurd hcs (by decide)

/-- C3, instantiated: both files found — the first PATCH conclusion is
`"success"` and it corresponds to an all-pass Verdict. -/
theorem c3_witness :
    (patchConclusions (handler envAllFound pOk)).head? =
      some (conclusionFor
        [{ name := "README.md", pass := true, notes := "Checked at repo root" },
         { name := "CONTRIBUTING.md", pass := true, notes := "Checked at repo root" }]) :=
  ((c3_conclusion_fails_closed envAllFound pOk (by decide) (by decide) rfl rfl).1
    _ rfl).1

/-- C8: after the event filter passes, an authentication failure aborts
the run with only the failed authentication call issued, and a check-run
creation failure aborts it with only the authentication and creation
calls issued; in either case no finalize PATCH and no comment POST is
issued. -/
theorem c8_abort_before_create (env : Env) (p : Payload)
    (ha : actionable p.action = true) (hf : filterPasses p = true) :
    (env.authOk = false →
      handler env p = ⟨[ApiCall.auth (p.installationId.getD 0)], true⟩)
    ∧ (env.authOk = true → env.createOk = false →
        handler env p = ⟨[ApiCall.auth (p.installationId.getD 0),
          ApiCall.createCheckRun (p.ownerLogin.getD "") (p.repoName.getD "")
            (p.headSha.getD "")], true⟩)
    ∧ ((env.authOk = false ∨ env.createOk = false) →
        finalizeCount (handler env p) = 0 ∧
        (handler env p).calls.filter isComment = []) := by
  refine ⟨?_, ?_, ?_⟩
  · intro hA
    simp [handler, ha, hf, hA]
  · intro hA hC
    simp [handler, ha, hf, hA, hC]
  · intro hor
    rcases hor with hA | hC
    · simp [handler, ha, hf, hA, finalizeCount, isPatch, isComment]
    · cases hA : env.authOk
      · simp [handler, ha, hf, hA, finalizeCount, isPatch, isComment]
      · simp [handler, ha, hf, hA, hC, finalizeCount, isPatch, isComment]

/-- C8, instantiated: a failing authentication issues exactly the one
authentication call, and a failing creation issues exactly the
authentication and creation calls. -/
theorem c8_witness :
    handler envAuthFail pOk = ⟨[ApiCall.auth 5], true⟩ ∧
    handler envCreateFail pOk =
      ⟨[ApiCall.auth 5, ApiCall.createCheckRun "o" "r" "abc"], true⟩ :=
  ⟨(c8_abort_before_create envAuthFail pOk (by decide) (by decide)).1 rfl,
   (c8_abort_before_create envCreateFail pOk (by decide) (by decide)).2.1 rfl rfl⟩

/-- C9: the file-check handler's guard additionally requires
`payload.number`: an actionable event with installation id, owner login,
repository name and head SHA all present but with `payload.number` absent
or zero is dropped before any remote call. -/
theorem c9_pr_number_required (env : Env) (p : Payload)
    (ha : actionable p.action = true)
    (h1 : truthyNat p.installationId = true) (h2 : truthyStr p.ownerLogin = true)
    (h3 : truthyStr p.repoName = true) (h4 : truthyStr p.headSha = true)
    (h5 : truthyNat p.number = false) :
    handler env p = ⟨[], false⟩ := by
  simp [handler, ha, filterPasses, h1, h2, h3, h4, h5]

/-- C9, instantiated: with `payload.number` absent, and with
`payload.number = 0`, the handler issues no call. -/
theorem c9_witness :
    handler envAllFound pNoNumber = ⟨[], false⟩ ∧
    handler envAllFound pZeroNumber = ⟨[], false⟩ :=
  ⟨c9_pr_number_required envAllFound pNoNumber (by decide) (by decide) (by decide)
      (by decide) (by decide) (by decide),
   c9_pr_number_required envAllFound pZeroNumber (by decide) (by decide) (by decide)
      (by decide) (by decide) (by decide)⟩

lemma fileExists_ok_of_ne (o : ContentsOutcome) (h : o ≠ ContentsOutcome.otherError) :
    ∃ b, fileExists o = .ok b := by
  cases o with
  | found => exact ⟨true, rfl⟩
  | notFound404 => exact ⟨false, rfl⟩
  | otherError => exact absurd rfl h

/-- C4 (amended): in the file-check variant the computed rows — and hence
the title, summary, table and comment rendered from them — are a function
of the contents-API responses at the two target paths alone; any two
environments agreeing there yield identical reports, whatever the other
remote outcomes are. (The demo variant's report instead depends on a
random draw, so identical remote responses do not suffice there.) -/
theorem c4_amended_file_report_deterministic (e₁ e₂ : Env)
    (h : ∀ t ∈ targets, e₁.contents t = e₂.contents t) :
    existenceResults e₁ = existenceResults e₂ ∧
    (existenceResults e₁).map
        (fun rows => (fileTitle rows, fileSummary rows, renderTable rows,
          renderComment rows)) =
      (existenceResults e₂).map
        (fun rows => (fileTitle rows, fileSummary rows, renderTable rows,
          renderComment rows)) := by
  have h1 : e₁.contents "README.md" = e₂.contents "README.md" :=
    h _ (by simp [targets])
  have h2 : e₁.contents "CONTRIBUTING.md" = e₂.contents "CONTRIBUTING.md" :=
    h _ (by simp [targets])
  have hres : existenceResults e₁ = existenceResults e₂ := by
    simp [existenceResults, targets, collectRows, rowFor, h1, h2, Except.map]
  exact ⟨hres, by rw [hres]⟩

/-- C4 amended, instantiated: two environments with the same contents
responses but a different comment outcome produce the same rows. -/
theorem c4_amended_witness :
    existenceResults envAllFound = existenceResults envCommentFails :=
  (c4_amended_file_report_deterministic envAllFound envCommentFails
    (by decide)).1

/-- C5: a 404 from the contents query is a normal `pass = false` rule
result and verification still produces a Verdict (finalized with the
computed conclusion), while a non-404 error from any target's query makes
`Promise.all` reject, aborting Verdict computation, and the run finalizes
through the fail-closed fallback PATCH (`conclusion = "failure"`, error
title). -/
theorem c5_rule_404_vs_error (env : Env) (p : Payload)
    (ha : actionable p.action = true) (hf : filterPasses p = true)
    (hA : env.authOk = true) (hC : env.createOk = true) :
    (∀ t, env.contents t = .notFound404 →
      rowFor env t = .ok { name := t, pass := false, notes := "Checked at repo root" })
    ∧ ((∀ t ∈ targets, env.contents t ≠ .otherError) →
        ∃ rows, existenceResults env = .ok rows ∧
          (patchConclusions (handler env p)).head? = some (conclusionFor rows))
    ∧ ((∃ t ∈ targets, env.contents t = .otherError) →
        existenceResults env = .error () ∧
        patchConclusions (handler env p) = ["failure"] ∧
        patchTitles (handler env p) = ["Compliance (files): ERROR"]) := by
  have hhead : ∀ rows, existenceResults env = .ok rows →
      (patchConclusions (handler env p)).head? = some (conclusionFor rows) := by
    intro rows h
    rw [patchConclusions_handler env p ha hf hA hC, h]
    cases hb : env.patchOk && env.commentOk <;> simp [hb]
  refine ⟨?_, ?_, ?_⟩
  · intro t h
    simp [rowFor, h, fileExists, Except.map]
  · intro hno
    obtain ⟨b1, hb1⟩ := fileExists_ok_of_ne _ (hno "README.md" (by simp [targets]))
    obtain ⟨b2, hb2⟩ := fileExists_ok_of_ne _ (hno "CONTRIBUTING.md" (by simp [targets]))
    refine ⟨[{ name := "README.md", pass := b1, notes := "Checked at repo root" },
             { name := "CONTRIBUTING.md", pass := b2, notes := "Checked at repo root" }],
            ?_, ?_⟩
    · simp [existenceResults, targets, collectRows, rowFor, hb1, hb2, Except.map]
    · exact hhead _ (by
        simp [existenceResults, targets, collectRows, rowFor, hb1, hb2, Except.map])
  · rintro ⟨t, ht, he⟩
    have herr : existenceResults env = .error () := by
      simp [targets] at ht
      rcases ht with rfl | rfl
      · simp [existenceResults, targets, collectRows, rowFor, he, fileExists, Except.map]
      · rcases o1 : env.contents "README.md" <;>
          simp [existenceResults, targets, collectRows, rowFor, he, o1, fileExists, Except.map]
    refine ⟨herr, ?_, patchTitles_handler_error env p ha hf hA hC () herr⟩
    rw [patchConclusions_handler env p ha hf hA hC, herr]

/-- C5, instantiated: with `CONTRIBUTING.md` answering 404 the run
finalizes with the computed conclusion of a produced Verdict, and with a
non-404 error there it finalizes through the fail-closed fallback. -/
theorem c5_witness :
    (∃ rows, existenceResults envContrib404 = .ok rows ∧
      (patchConclusions (handler envContrib404 pOk)).head? =
        some (conclusionFor rows)) ∧
    (existenceResults envContribError = .error () ∧
      patchConclusions (handler envContribError pOk) = ["failure"] ∧
      patchTitles (handler envContribError pOk) = ["Compliance (files): ERROR"]) :=
  ⟨(c5_rule_404_vs_error envContrib404 pOk (by decide) (by decide) rfl rfl).2.1
      (by decide),
   (c5_rule_404_vs_error envContribError pOk (by decide) (by decide) rfl rfl).2.2
      (by decide)⟩

/-- C6 (amended): the file-check handler returns silently with no remote
call exactly when the action is not actionable or one of its five required
fields — installation id, owner login, repository name, head SHA, and
additionally the pull-request number — is missing or falsy; the demo
variant requires exactly the four fields the spec lists. When its guard
passes, a handler first authenticates and, if that succeeds, creates the
check run. -/
theorem c6_amended_event_filter (env : Env) (p : Payload) (compliant : Bool) :
    ((handler env p = ⟨[], false⟩) ↔
      (actionable p.action = false ∨ filterPasses p = false))
    ∧ ((demoHandler env p compliant = ⟨[], false⟩) ↔
        (actionable p.action = false ∨ demoFilterPasses p = false))
    ∧ (actionable p.action = true → filterPasses p = true →
        (handler env p).calls.head? = some (.auth (p.installationId.getD 0)) ∧
        (env.authOk = true →
          ((handler env p).calls.drop 1).head? =
            some (.createCheckRun (p.ownerLogin.getD "") (p.repoName.getD "")
              (p.headSha.getD "")))) := by
  refine ⟨?_, ?_, ?_⟩
  · cases hA : actionable p.action <;> cases hF : filterPasses p <;>
      cases hau : env.authOk <;> cases hcr : env.createOk <;>
      simp [handler, hA, hF, hau, hcr]
  · cases hA : actionable p.action <;> cases hF : demoFilterPasses p <;>
      cases hau : env.authOk <;> cases hcr : env.createOk <;>
      cases hpt : env.patchOk <;>
      simp [demoHandler, hA, hF, hau, hcr, hpt]
  · intro hA hF
    cases hau : env.authOk <;> cases hcr : env.createOk <;>
      simp [handler, hA, hF, hau, hcr]

/-- C6 amended, instantiated: a full payload proceeds to authenticate and
create; the same payload without `payload.number` is dropped by the
file-check handler but not by the demo handler. -/
theorem c6_amended_witness :
    (handler envAllFound pOk).calls.head? = some (.auth 5) ∧
    (handler envAllFound pNoNumber = ⟨[], false⟩) ∧
    ¬(demoHandler envAllFound pNoNumber true = ⟨[], false⟩) :=
  ⟨((c6_amended_event_filter envAllFound pOk true).2.2 (by decide) (by decide)).1,
   (c6_amended_event_filter envAllFound pNoNumber true).1.mpr (by decide),
   fun h => by
    have := (c6_amended_event_filter envAllFound pNoNumber true).2.1.mp h
    exact absurd this (by decide)⟩

lemma joinSep_split (sep s : String) (l : List String) (h : s ∈ l) :
    ∃ p q, joinSep sep l = p ++ s ++ q := by
  induction l with
  | nil => cases h
  | cons a rest ih =>
    rcases rest with _ | ⟨b, rest'⟩
    · have hs : s = a := by simpa using h
      subst hs
      exact ⟨"", "", by simp [joinSep, String.empty_append, String.append_empty]⟩
    · rcases List.mem_cons.mp h with hs | hs
      · subst hs
        refine ⟨"", sep ++ joinSep sep (b :: rest'), ?_⟩
        simp [joinSep, String.empty_append, String.append_assoc]
      · obtain ⟨p, q, hpq⟩ := ih hs
        refine ⟨a ++ sep ++ p, q, ?_⟩
        simp [joinSep, hpq, String.append_assoc]

lemma mem_missingNames {r : Row} {rows : List Row} (hr : r ∈ rows)
    (hp : r.pass = false) : r.name ∈ missingNames rows := by
  simp only [missingNames, List.mem_map]
  exact ⟨r, List.mem_filter.mpr ⟨hr, by simp [hp]⟩, rfl⟩

lemma missingNames_nil_of_all (rows : List Row)
    (h : rows.all (fun r => r.pass) = true) : missingNames rows = [] := by
  simp only [missingNames, List.map_eq_nil_iff, List.filter_eq_nil_iff]
  intro r hr
  simpa using List.all_eq_true.mp h r hr

/-- C7: the rendered comment begins with the PASSED header when all rules
pass (and the failing-name list is then empty); otherwise it begins with
the FAILED header followed by the comma-joined names of exactly the
failing rules; every failing rule's name occurs in the comment; and the
comment ends with the `Check | Result | Notes` table holding one row per
rule in declared order. -/
theorem c7_render_comment (rows : List Row) :
    (rows.all (fun r => r.pass) = true →
      renderComment rows =
        "✅ **Compliance PASSED** — All required files are present." ++ "\n\n"
          ++ renderTable rows ∧
      missingNames rows = [])
    ∧ (rows.all (fun r => r.pass) = false →
        renderComment rows =
          "❌ **Compliance FAILED** — Missing: " ++ joinSep ", " (missingNames rows)
            ++ "\n\n" ++ renderTable rows)
    ∧ (∀ r ∈ rows, r.pass = false →
        ∃ pre post, renderComment rows = pre ++ r.name ++ post)
    ∧ renderTable rows =
        "| Check | Result | Notes |\n|---|---|---|\n" ++
          joinSep "\n" (rows.map fun r =>
            "| " ++ r.name ++ " | " ++ (if r.pass then "✅ Present" else "❌ Missing")
              ++ " | " ++ r.notes ++ " |") := by
  have h2 : rows.all (fun r => r.pass) = false →
      renderComment rows =
        "❌ **Compliance FAILED** — Missing: " ++ joinSep ", " (missingNames rows)
          ++ "\n\n" ++ renderTable rows := by
    intro hall
    obtain ⟨r, hr, hrp⟩ : ∃ r ∈ rows, r.pass = false := by
      simpa using List.all_eq_false.mp hall
    have hne : r.name ∈ missingNames rows := mem_missingNames hr hrp
    rcases hm : missingNames rows with _ | ⟨x, xs⟩
    · rw [hm] at hne
      cases hne
    · simp [renderComment, hm]
  refine ⟨?_, h2, ?_, rfl⟩
  · intro hall
    have hm : missingNames rows = [] := missingNames_nil_of_all rows hall
    exact ⟨by simp [renderComment, hm], hm⟩
  · intro r hr hrp
    have hall : rows.all (fun r => r.pass) = false := by
      cases hall : rows.all (fun r => r.pass)
      · rfl
      · exact absurd (by simpa using List.all_eq_true.mp hall r hr) (by simp [hrp])
    obtain ⟨p, q, hpq⟩ := joinSep_split ", " r.name _ (mem_missingNames hr hrp)
    refine ⟨"❌ **Compliance FAILED** — Missing: " ++ p,
      q ++ "\n\n" ++ renderTable rows, ?_⟩
    rw [h2 hall, hpq]
    simp [String.append_assoc]

/-- C7, instantiated: for rows where only `"B"` fails, the overall result
is failing and `"B"` occurs in the rendered comment. -/
theorem c7_witness :
    ([({ name := "A", pass := true, notes := "" } : Row),
      { name := "B", pass := false, notes := "n" }].all (fun r => r.pass) = false) ∧
    (∃ pre post,
      renderComment [{ name := "A", pass := true, notes := "" },
        { name := "B", pass := false, notes := "n" }] = pre ++ "B" ++ post) :=
  ⟨by decide,
   (c7_render_comment [{ name := "A", pass := true, notes := "" },
      { name := "B", pass := false, notes := "n" }]).2.2.1
     { name := "B", pass := false, notes := "n" } (by decide) rfl⟩

end GhApp
